import Mathlib

/-!
Shallow embedding of `roboflow/models/inference.py` (class `InferenceModel`).

Conventions used throughout:
* Python dicts with string keys/values are association lists with unique keys,
  manipulated through `dictGet` / `dictSet` / `dictUpdate`, which mirror
  `d[k]`, `d[k] = v` and `d.update(**kwargs)`.
* JSON values are the inductive `Json`; the Python empty dict `{}` is
  `Json.obj []`.
* Network I/O, the filesystem and the PIL image library are external to the
  module; they are modelled as oracle structures (`PollNet`, `VideoNet`,
  `ImageLib`) supplying the responses the code would read.  Each operation
  returns the ordered list of HTTP requests it issued together with its
  result, so "no network call" is `trace = []`.
* A Python exception is `Except.error msg`.  A reference to an unassigned
  local variable (an `UnboundLocalError`) and a missing attribute
  (`AttributeError`) are modelled as the corresponding `Except.error`.
-/

/-- JSON values, as produced by `response.json()`.  Objects are encoded as a
spine of key/value pairs: `objNil` is the empty object `{}` and
`objCons k v rest` is the object `rest` extended with the entry `k : v`
(arrays do not occur in this module's behaviour and are omitted). -/
inductive Json where
  | null : Json
  | num (n : Int) : Json
  | str (s : String) : Json
  | objNil : Json
  | objCons (key : String) (val : Json) (rest : Json) : Json
deriving DecidableEq, Repr

deriving instance DecidableEq for Except

/-- Python dict lookup `d.get(k)` on an association list with unique keys. -/
def dictGet : List (String × String) → String → Option String
  | [], _ => none
  | (k0, v0) :: rest, k => if k0 = k then some v0 else dictGet rest k

/-- Python dict assignment `d[k] = v`: overwrite in place, else append. -/
def dictSet : List (String × String) → String → String → List (String × String)
  | [], k, v => [(k, v)]
  | (k0, v0) :: rest, k, v =>
    if k0 = k then (k0, v) :: rest else (k0, v0) :: dictSet rest k v

/-- Python `d.update(**kwargs)`: apply `dictSet` for each pair, left to right. -/
def dictUpdate : List (String × String) → List (String × String) → List (String × String)
  | d, [] => d
  | d, (k, v) :: rest => dictUpdate (dictSet d k v) rest

/-- The value the last occurrence of key `k` in `kws` carries, if any. -/
def lastVal : List (String × String) → String → Option String
  | [], _ => none
  | (k0, v0) :: rest, k =>
    match lastVal rest k with
    | some v => some v
    | none => if k0 = k then some v0 else none

/-- Python `s.split(sep)` / `s.rsplit(sep)` for a one-character separator
and no maxsplit: both cut at every occurrence. -/
def splitOnChar (sep : Char) : List Char → List (List Char)
  | [] => [[]]
  | c :: rest =>
    let r := splitOnChar sep rest
    if c = sep then [] :: r
    else
      match r with
      | [] => [[c]]
      | g :: gs => (c :: g) :: gs

/-- `version_id.rsplit("/")` from `InferenceModel.__init__`. -/
def pySplit (s : String) (sep : Char) : List String :=
  (splitOnChar sep s.toList).map (fun cs => String.mk cs)

/-- Whether the first list is an initial run of the second. -/
def charsPrefix : List Char → List Char → Bool
  | [], _ => true
  | _ :: _, [] => false
  | p :: ps, c :: cs => p = c && charsPrefix ps cs

/-- Python `s.startswith(p)` for one prefix string. -/
def pyStartswith (s p : String) : Bool :=
  charsPrefix p.toList s.toList

/-- The client state set up by `InferenceModel.__init__`. -/
structure InferenceModel where
  api_key : String
  id : String
  dataset_id : String
  version : String
  colors : List (String × String)
deriving DecidableEq, Repr

/-- `InferenceModel.__init__(api_key, version_id, colors)`: splits the id on
`"/"` and indexes segments 1 and 2; an `IndexError` (fewer than three
segments) is `none`. -/
def InferenceModel.init (api_key version_id : String)
    (colors : Option (List (String × String))) : Option InferenceModel :=
  let version_info := pySplit version_id '/'
  match version_info.get? 1, version_info.get? 2 with
  | some d, some v =>
    some { api_key := api_key, id := version_id, dataset_id := d, version := v,
           colors := colors.getD [] }
  | _, _ => none




/-- Characters `urllib` allows in a URL scheme after the first one. -/
def isSchemeChar (c : Char) : Bool :=
  c.isAlphanum || c = '+' || c = '-' || c = '.'

/-- `str.lower()` on the characters of a string. -/
def lowerStr (s : String) : String :=
  String.mk (s.toList.map Char.toLower)

/-- `urllib.parse.urlparse(s).scheme`: when the text before the first `":"`
is a well-formed scheme (leading letter, then scheme characters), that text
lowercased; otherwise `""`. -/
def urlScheme (s : String) : String :=
  match pySplit s ':' with
  | [] => ""
  | [_] => ""
  | head :: _ :: _ =>
    match head.toList with
    | [] => ""
    | c :: rest => if c.isAlpha && rest.all isSchemeChar then lowerStr head else ""



/-- Decoded pixel dimensions of an image (`PIL.Image.open(...).size`). -/
structure ImageData where
  width : Nat
  height : Nat
deriving DecidableEq, Repr

/-- Oracles for the externals the request builder touches: path validation
(from `roboflow.util.image_utils`), PIL decoding, and PIL JPEG encoding. -/
structure ImageLib where
  /-- Modelled from the spec: `validate_image_path` (external to this module)
  accepts a reference that is an existing local file or a well-formed http(s)
  URL and raises otherwise. -/
  validPath : String → Bool
  /-- `PIL.Image.open` and `.size`: `none` when the file is not a readable
  image, otherwise its pixel dimensions. -/
  decode : String → Option ImageData
  /-- `image.save(buffered, quality=q, format="JPEG")`: the bytes written to
  the in-memory buffer by the JPEG re-encode at quality `q`. -/
  encodeJpeg : ImageData → Nat → List Nat
deriving Inhabited

/-- One field of a `MultipartEncoder` body: Python
`fields={name: (filename, content, contentType)}`. -/
structure MultipartField where
  fieldName : String
  fileName : String
  content : List Nat
  contentType : String
deriving DecidableEq, Repr

/-- The body an inference request carries. -/
inductive RequestBody where
  | empty : RequestBody
  | multipart (fields : List MultipartField) : RequestBody
deriving DecidableEq, Repr

/-- The triple `__get_image_params` returns: querystring params, request
kwargs (body and headers), and the reported image dimensions. -/
structure ImageParams where
  params : List (String × String)
  body : RequestBody
  headers : List (String × String)
  image_dims : List (String × String)
deriving DecidableEq, Repr

/-- `InferenceModel.__get_image_params(image_path)`.  The multipart
`Content-Type` header's random boundary suffix is elided. -/
def getImageParams (lib : ImageLib) (image_path : String) : Except String ImageParams :=
  if ¬ lib.validPath image_path then .error "Image path is not valid"
  else if urlScheme image_path ∈ (["http", "https"] : List String) then
    .ok { params := [("image", image_path)], body := .empty, headers := [],
          image_dims := [("width", "Undefined"), ("height", "Undefined")] }
  else
    match lib.decode image_path with
    | none => .error "Error opening image"
    | some image =>
      let buffered := lib.encodeJpeg image 90
      .ok { params := [],
            body := .multipart [{ fieldName := "file", fileName := "imageToUpload",
                                  content := buffered, contentType := "image/jpeg" }],
            headers := [("Content-Type", "multipart/form-data")],
            image_dims := [("width", toString image.width),
                           ("height", toString image.height)] }

/-- The HTTP POST `predict` is about to issue: endpoint, query parameters
(in insertion order, as `urlencode` serialises them), body and headers. -/
structure PredictRequest where
  url : String
  queryParams : List (String × String)
  body : RequestBody
  headers : List (String × String)
deriving DecidableEq, Repr

/-- `InferenceModel.predict(image_path, **kwargs)` up to the point the POST is
issued: builds params via `__get_image_params`, sets `params["api_key"]`, then
applies `params.update(**kwargs)`.  `api_url` is the endpoint attribute the
concrete model subclass supplies (outside this module); response parsing into
a `PredictionGroup` is delegated to an external collaborator. -/
def predict (m : InferenceModel) (lib : ImageLib) (api_url : String)
    (image_path : String) (kwargs : List (String × String)) :
    Except String PredictRequest :=
  match getImageParams lib image_path with
  | .error e => .error e
  | .ok ip =>
    let params := dictSet ip.params "api_key" m.api_key
    let params := dictUpdate params kwargs
    .ok { url := api_url, queryParams := params, body := ip.body, headers := ip.headers }

/-- `API_URL` from `roboflow.config`: the configured base endpoint (an origin
with no path, so `urljoin(API_URL, "/p")` is plain concatenation). -/
def API_URL : String := "https://api.roboflow.com"

/-- One entry of a job submission's `models` list. -/
structure ModelDescriptor where
  model_id : String
  model_version : String
  inference_type : String
deriving DecidableEq, Repr

/-- `SUPPORTED_ROBOFLOW_MODELS` from the module top level. -/
def SUPPORTED_ROBOFLOW_MODELS : List String := ["batch-video"]

/-- `SUPPORTED_ADDITIONAL_MODELS` from the module top level. -/
def SUPPORTED_ADDITIONAL_MODELS : List (String × ModelDescriptor) :=
  [("clip", ⟨"clip", "1", "clip-embed-image"⟩),
   ("gaze", ⟨"gaze", "1", "gaze-detection"⟩)]

/-- Dict lookup `SUPPORTED_ADDITIONAL_MODELS[name]`. -/
def lookupAdditionalModel (name : String) : Option ModelDescriptor :=
  (SUPPORTED_ADDITIONAL_MODELS.find? (fun p => p.1 = name)).map (fun p => p.2)

/-- The `self.type` label `predict_video` derives from
`self.__class__.__name__`. -/
def modelTypeOf (model_class : String) : Option String :=
  if model_class = "ObjectDetectionModel" then some "object-detection"
  else if model_class = "ClassificationModel" then some "classification"
  else if model_class = "InstanceSegmentationModel" then some "instance-segmentation"
  else none

/-- JSON body of the job-submission POST:
`{"input_url": ..., "infer_fps": ..., "models": [...]}`. -/
structure JobPayload where
  input_url : String
  infer_fps : Nat
  models : List ModelDescriptor
deriving DecidableEq, Repr

/-- The HTTP requests `predict_video` can issue, in the order issued. -/
inductive VideoRequest where
  | signedUrlPost (url : String) (file_name : String) : VideoRequest
  | uploadPut (url : String) (data : List Nat) : VideoRequest
  | jobPost (url : String) (headers : List (String × String))
      (payload : JobPayload) : VideoRequest
deriving DecidableEq, Repr

/-- Oracles for the externals `predict_video` touches.  Transport-level
failures of the HTTP library are not modelled; the oracles supply the fields
the code reads out of each response. -/
structure VideoNet where
  /-- `signed_url` field of the JSON response to the signed-upload-URL POST
  for a given `file_name`. -/
  signedUrl : String → String
  /-- `open(video_path, "rb").read()`: `none` when reading raises. -/
  readFile : String → Option (List Nat)
  /-- `job_id` field of the JSON response to the job-submission POST. -/
  jobId : JobPayload → String
deriving Inhabited

/-- `urljoin(API_URL, "/video_upload_signed_url?api_key=" + api_key)`. -/
def signedUrlEndpoint (m : InferenceModel) : String :=
  API_URL ++ "/video_upload_signed_url?api_key=" ++ m.api_key

/-- `urljoin(API_URL, "/videoinfer/?api_key=" + api_key)`. -/
def videoinferEndpoint (m : InferenceModel) : String :=
  API_URL ++ "/videoinfer/?api_key=" ++ m.api_key

/-- `InferenceModel.predict_video(video_path, fps, additional_models,
prediction_type)`, with `model_class = self.__class__.__name__`.  Returns the
ordered list of HTTP requests issued together with the `(job_id, signed_url)`
pair or the raised exception.  The `headers` local variable is assigned only
inside the local-path upload branch, so it is threaded as an `Option` that
stays `none` on the hosted-URL branch; the job-submission line reads it, and
reading an unassigned local raises `UnboundLocalError` before the request
goes out.  The returned `job_id` is also cached on the instance as
`self.job_id`; the polling operations below take that cached value
explicitly. -/
def predict_video (m : InferenceModel) (model_class : String) (net : VideoNet)
    (video_path : String) (fps : Int) (additional_models : List String)
    (prediction_type : String) :
    List VideoRequest × Except String (String × String) :=
  if fps > 5 then
    ([], .error "FPS must be less than or equal to 5.")
  else
    match additional_models.find? (fun am => (lookupAdditionalModel am).isNone) with
    | some am => ([], .error ("Model " ++ am ++ " is not supported for video inference."))
    | none =>
      if prediction_type ∉ SUPPORTED_ROBOFLOW_MODELS then
        ([], .error (prediction_type ++ " is not supported for video inference."))
      else
        match modelTypeOf model_class with
        | none => ([], .error "Model type not supported for video inference.")
        | some ty =>
          let upload :
              List VideoRequest ×
                Except String (String × Option (List (String × String))) :=
            if ¬ (pyStartswith video_path "http://" || pyStartswith video_path "https://") then
              let req1 := VideoRequest.signedUrlPost (signedUrlEndpoint m) video_path
              let signed_url := net.signedUrl video_path
              match net.readFile video_path with
              | none => ([req1], .error "Error reading video")
              | some video_data =>
                let req2 := VideoRequest.uploadPut signed_url video_data
                ([req1, req2],
                 .ok (signed_url, some [("Content-Type", "application/octet-stream")]))
            else
              ([], .ok (video_path, none))
          match upload with
          | (preTrace, .error e) => (preTrace, .error e)
          | (preTrace, .ok (signed_url, headersOpt)) =>
            let models : List ModelDescriptor :=
              ⟨m.dataset_id, m.version, ty⟩ ::
                additional_models.filterMap lookupAdditionalModel
            let payload : JobPayload := ⟨signed_url, 5, models⟩
            match headersOpt with
            | none =>
              (preTrace, .error "UnboundLocalError: local variable referenced before assignment: headers")
            | some headers =>
              let req3 := VideoRequest.jobPost (videoinferEndpoint m) headers payload
              (preTrace ++ [req3], .ok (net.jobId payload, signed_url))

/-- Parsed JSON body of a GET against the video status endpoint: the fields
the code reads (`data.get("status")` and `data["output_signed_url"]`). -/
structure StatusResponse where
  status : Option Int
  output_signed_url : Option String
deriving DecidableEq, Repr

/-- Oracles for the two GETs a single poll can issue. -/
structure PollNet where
  /-- Parsed JSON body of the GET against the status endpoint URL. -/
  statusResp : String → StatusResponse
  /-- Parsed JSON body of the GET against an output signed URL. -/
  fetch : String → Json

/-- The HTTP requests a single poll can issue, in the order issued. -/
inductive PollRequest where
  | statusGet (url : String) : PollRequest
  | resultsGet (url : String) : PollRequest
deriving DecidableEq, Repr

/-- `urljoin(API_URL, "/videoinfer/?api_key=" + api_key + "&job_id=" + job_id)`. -/
def videoStatusUrl (m : InferenceModel) (job_id : String) : String :=
  API_URL ++ "/videoinfer/?api_key=" ++ m.api_key ++ "&job_id=" ++ job_id

/-- `InferenceModel.poll_for_video_results(job_id)`.  `cached` is the
instance attribute `self.job_id` (set by the last `predict_video`; `none`
when never set, in which case reading it raises `AttributeError`).  The
explicit `job_id` argument is normalised into a local, but the status URL is
built from `self.job_id`, not from that local. -/
def poll_for_video_results (m : InferenceModel) (cached : Option String)
    (net : PollNet) (job_id : Option String) :
    List PollRequest × Except String Json :=
  let resolved : Except String String :=
    match job_id with
    | none =>
      match cached with
      | none => .error "AttributeError: job_id"
      | some c => .ok c
    | some j => .ok j
  match resolved with
  | .error e => ([], .error e)
  | .ok _job_id =>
    match cached with
    | none => ([], .error "AttributeError: job_id")
    | some self_job_id =>
      let url := videoStatusUrl m self_job_id
      let data := net.statusResp url
      if data.status ≠ some 0 then
        ([PollRequest.statusGet url], .ok Json.objNil)
      else
        match data.output_signed_url with
        | none => ([PollRequest.statusGet url], .error "KeyError: output_signed_url")
        | some output_signed_url =>
          ([PollRequest.statusGet url, PollRequest.resultsGet output_signed_url],
           .ok (net.fetch output_signed_url))

/-- The observable events of the blocking poll loop. -/
inductive PollEvent where
  | pollCall (attempt : Nat) : PollEvent
  | sleepSec (seconds : Nat) : PollEvent
deriving DecidableEq, Repr

/-- Body of the `while True` loop of `poll_until_video_results`: call the
single poll, `time.sleep(60)`, increment `attempts`, return when the response
is not `{}`.  `nets attempt` is the network state seen by the `attempt`-th
single poll (responses change as the remote job progresses).  `fuel` bounds
the unrolling of the unbounded loop: result `none` means the loop was still
running after `fuel` iterations.  An exception from the single poll
propagates before the sleep.  The progress `print` is console output and is
not an event. -/
def poll_until_aux (m : InferenceModel) (cached : Option String)
    (nets : Nat → PollNet) :
    Nat → Nat → List PollEvent × Option (Except String Json)
  | 0, _ => ([], none)
  | fuel + 1, attempts =>
    match (poll_for_video_results m cached (nets attempts) none).2 with
    | .error e => ([PollEvent.pollCall attempts], some (.error e))
    | .ok response =>
      if response ≠ Json.objNil then
        ([PollEvent.pollCall attempts, PollEvent.sleepSec 60], some (.ok response))
      else
        let (rest, r) := poll_until_aux m cached nets fuel (attempts + 1)
        (PollEvent.pollCall attempts :: PollEvent.sleepSec 60 :: rest, r)

/-- `InferenceModel.poll_until_video_results(job_id)`.  The `job_id` argument
is normalised first (`AttributeError` when both it and the cached id are
absent) but is otherwise unused: every iteration calls
`poll_for_video_results()` with no argument. -/
def poll_until_video_results (m : InferenceModel) (cached : Option String)
    (nets : Nat → PollNet) (job_id : Option String) (fuel : Nat) :
    List PollEvent × Option (Except String Json) :=
  match job_id, cached with
  | none, none => ([], some (.error "AttributeError: job_id"))
  | _, _ => poll_until_aux m cached nets fuel 0

/-- A concrete client used in concrete evaluations: the result of
`InferenceModel("SECRET", "w/d/v")`. -/
def sampleModel : InferenceModel :=
  { api_key := "SECRET", id := "w/d/v", dataset_id := "d", version := "v", colors := [] }

/-- A status endpoint answering `{"status": 0, "output_signed_url": "http://x"}`,
with `GET http://x` answering `{"frame_0": "pred"}`. -/
def readyStatusNet : PollNet :=
  { statusResp := fun _ => { status := some 0, output_signed_url := some "http://x" },
    fetch := fun _ => Json.objCons "frame_0" (Json.str "pred") Json.objNil }

/-- A status endpoint answering `{"status": 1, "output_signed_url": "http://x"}`. -/
def status1Net : PollNet :=
  { statusResp := fun _ => { status := some 1, output_signed_url := some "http://x" },
    fetch := fun _ => Json.objCons "frame_0" (Json.str "pred") Json.objNil }

/-- A status endpoint answering `{"status": 1}`: the job is still pending. -/
def pendingStatusNet : PollNet :=
  { statusResp := fun _ => { status := some 1, output_signed_url := none },
    fetch := fun _ => Json.objNil }

/-- Network history for the spec's polling scenario: the first two polls see a
pending job, every later poll sees the ready job. -/
def scenarioNets : Nat → PollNet :=
  fun n => if n < 2 then pendingStatusNet else readyStatusNet

/-- An image library oracle that accepts every path (used with hosted URLs,
where no decode happens). -/
def sampleHostedLib : ImageLib :=
  { validPath := fun _ => true, decode := fun _ => none, encodeJpeg := fun _ _ => [] }

/-- An image library oracle with one local image, `cat.jpg`, of 200 by 150
pixels, and a concrete stand-in JPEG encoder. -/
def sampleLocalLib : ImageLib :=
  { validPath := fun _ => true,
    decode := fun p => if p = "cat.jpg" then some { width := 200, height := 150 } else none,
    encodeJpeg := fun img q => [img.width % 256, img.height % 256, q % 256] }

/-- The request `predict(sampleModel, "http://example.com/cat.jpg",
confidence="40")` issues. -/
def sampleReq : PredictRequest :=
  { url := "https://api.example/m",
    queryParams := [("image", "http://example.com/cat.jpg"), ("api_key", "SECRET"),
                    ("confidence", "40")],
    body := .empty, headers := [] }

/-- A video network oracle with one local video `v.mp4` of three bytes. -/
def sampleVideoNet : VideoNet :=
  { signedUrl := fun fn => "https://storage.example/" ++ fn,
    readFile := fun p => if p = "v.mp4" then some [1, 2, 3] else none,
    jobId := fun _ => "job-1" }

/-- The event trace of `n` consecutive completed loop iterations of the
blocking poll starting at attempt `a`: each iteration polls, then sleeps 60
seconds. -/
def pollTrace : Nat → Nat → List PollEvent
  | _, 0 => []
  | a, n + 1 => PollEvent.pollCall a :: PollEvent.sleepSec 60 :: pollTrace (a + 1) n

/-- C5 counterexample: the identifier `"a/b/c/d"` splits into four segments,
yet construction succeeds (taking the second and third segments), so
"succeeds only with exactly three segments" is false. -/
theorem init_four_segments_succeeds :
    (pySplit "a/b/c/d" '/').length = 4 ∧
    (InferenceModel.init "k" "a/b/c/d" none).map
        (fun m => (m.dataset_id, m.version)) = some ("b", "c") := by
  decide

/-- C5 (amended): construction succeeds iff the model identifier splits on
`"/"` into at least three segments, and on success `dataset_id` and `version`
are the second and third segments. -/
theorem init_splits_id (api_key version_id : String)
    (colors : Option (List (String × String))) :
    ((InferenceModel.init api_key version_id colors).isSome = true ↔
      3 ≤ (pySplit version_id '/').length) ∧
    ∀ m, InferenceModel.init api_key version_id colors = some m →
      (pySplit version_id '/').get? 1 = some m.dataset_id ∧
      (pySplit version_id '/').get? 2 = some m.version := by
  unfold InferenceModel.init
  rcases h1 : (pySplit version_id '/').get? 1 with _ | d
  · have hlen : (pySplit version_id '/').length ≤ 1 := List.get?_eq_none.mp h1
    have h2 : (pySplit version_id '/').get? 2 = none := List.get?_eq_none.mpr (by omega)
    simp only [h1, h2]
    constructor
    · simp only [Option.isSome_none, Bool.false_eq_true, false_iff]
      omega
    · intro m hm
      cases hm
  · rcases h2 : (pySplit version_id '/').get? 2 with _ | v
    · have hlen : (pySplit version_id '/').length ≤ 2 := List.get?_eq_none.mp h2
      simp only [h1, h2]
      constructor
      · simp only [Option.isSome_none, Bool.false_eq_true, false_iff]
        omega
      · intro m hm
        cases hm
    · have hlen : ¬ (pySplit version_id '/').length ≤ 2 := by
        intro hq
        rw [List.get?_eq_none.mpr hq] at h2
        cases h2
      simp only [h1, h2]
      constructor
      · simp only [Option.isSome_some, true_iff]
        omega
      · intro m hm
        injection hm with hm
        subst hm
        exact ⟨rfl, rfl⟩

/-- C5 witness: instantiating at `"w/d/v"`, construction succeeds and yields
`dataset_id = "d"`, `version = "v"`. -/
theorem init_splits_id_witness :
    (pySplit "w/d/v" '/').get? 1 = some "d" ∧ (pySplit "w/d/v" '/').get? 2 = some "v" :=
  (init_splits_id "k" "w/d/v" none).2
    { api_key := "k", id := "w/d/v", dataset_id := "d", version := "v", colors := [] }
    (by decide)

/-- C1 counterexample: with a cached job `"abc123"` and a status response
`{"status": 0, "output_signed_url": "http://x"}` the single poll does NOT
return `{}` — it GETs `http://x` and returns `{"frame_0": "pred"}` — while
with `{"status": 1, "output_signed_url": "http://x"}` it returns `{}` and
never issues the second GET. -/
theorem poll_status_scenario_inverted :
    poll_for_video_results sampleModel (some "abc123") readyStatusNet none =
      ([PollRequest.statusGet (videoStatusUrl sampleModel "abc123"),
        PollRequest.resultsGet "http://x"],
       .ok (Json.objCons "frame_0" (Json.str "pred") Json.objNil)) ∧
    (poll_for_video_results sampleModel (some "abc123") readyStatusNet none).2 ≠
      .ok Json.objNil ∧
    poll_for_video_results sampleModel (some "abc123") status1Net none =
      ([PollRequest.statusGet (videoStatusUrl sampleModel "abc123")], .ok Json.objNil) := by
  decide

/-- C1 (amended): a status of 0 is the ready state — the poll then GETs the
returned `output_signed_url` and returns its JSON body verbatim; any status
other than 0 (for example 1) yields the empty dict `{}` with no second GET. -/
theorem poll_for_video_results_status_semantics
    (m : InferenceModel) (cjid u : String) (net netPending : PollNet)
    (jid jid2 : Option String)
    (hready : net.statusResp (videoStatusUrl m cjid) =
      { status := some 0, output_signed_url := some u })
    (hpending : (netPending.statusResp (videoStatusUrl m cjid)).status ≠ some 0) :
    poll_for_video_results m (some cjid) net jid =
      ([PollRequest.statusGet (videoStatusUrl m cjid), PollRequest.resultsGet u],
       .ok (net.fetch u)) ∧
    poll_for_video_results m (some cjid) netPending jid2 =
      ([PollRequest.statusGet (videoStatusUrl m cjid)], .ok Json.objNil) := by
  unfold poll_for_video_results
  cases jid <;> cases jid2 <;> simp [hready, hpending]

/-- C1 witness: instantiating the amended statement at the concrete ready and
pending networks. -/
theorem poll_for_video_results_status_semantics_witness :
    poll_for_video_results sampleModel (some "abc123") readyStatusNet (some "abc123") =
      ([PollRequest.statusGet (videoStatusUrl sampleModel "abc123"),
        PollRequest.resultsGet "http://x"],
       .ok (Json.objCons "frame_0" (Json.str "pred") Json.objNil)) ∧
    poll_for_video_results sampleModel (some "abc123") pendingStatusNet (some "abc123") =
      ([PollRequest.statusGet (videoStatusUrl sampleModel "abc123")], .ok Json.objNil) :=
  poll_for_video_results_status_semantics sampleModel "abc123" "http://x"
    readyStatusNet pendingStatusNet (some "abc123") (some "abc123") rfl (by decide)

/-- C2: the status request always targets the cached `self.job_id`, never the
explicit argument: the first (and only) status GET of any single poll with a
cached id uses the cached id's URL, and concretely, polling with explicit
`"explicit456"` against cached `"cached123"` still requests
`...&job_id=cached123`. -/
theorem poll_for_video_results_uses_cached_job_id :
    (∀ (m : InferenceModel) (cjid : String) (net : PollNet) (jid : Option String),
      (poll_for_video_results m (some cjid) net jid).1.head? =
        some (PollRequest.statusGet (videoStatusUrl m cjid))) ∧
    (poll_for_video_results sampleModel (some "cached123") readyStatusNet
        (some "explicit456")).1.head? =
      some (PollRequest.statusGet
        "https://api.roboflow.com/videoinfer/?api_key=SECRET&job_id=cached123") := by
  constructor
  · intro m cjid net jid
    unfold poll_for_video_results
    cases jid <;> dsimp only <;> split <;> (try split) <;> simp_all
  · decide

/-- Looking a key up after a single dict assignment: the assigned key reads
back the new value, every other key is untouched. -/
theorem dictGet_dictSet (d : List (String × String)) (k v k' : String) :
    dictGet (dictSet d k v) k' = if k = k' then some v else dictGet d k' := by
  induction d with
  | nil =>
    by_cases h : k = k' <;> simp [dictSet, dictGet, h]
  | cons p rest ih =>
    obtain ⟨k0, v0⟩ := p
    by_cases h0 : k0 = k
    · subst h0
      by_cases h1 : k0 = k' <;> simp [dictSet, dictGet, h1]
    · by_cases h1 : k0 = k'
      · subst h1
        have : ¬ k = k0 := fun he => h0 he.symm
        simp [dictSet, dictGet, h0, this]
      · simp [dictSet, dictGet, h0, h1, ih]

/-- Looking a key up after `d.update(**kwargs)`: the last occurrence in the
kwargs wins, and keys the kwargs do not carry read from the original dict. -/
theorem dictGet_dictUpdate (d kws : List (String × String)) (k : String) :
    dictGet (dictUpdate d kws) k =
      match lastVal kws k with
      | some v => some v
      | none => dictGet d k := by
  induction kws generalizing d with
  | nil => simp [dictUpdate, lastVal]
  | cons p rest ih =>
    obtain ⟨k0, v0⟩ := p
    rw [show dictUpdate d ((k0, v0) :: rest) = dictUpdate (dictSet d k0 v0) rest from rfl]
    rw [ih]
    cases h : lastVal rest k with
    | some v => simp [lastVal, h]
    | none =>
      simp only [lastVal, h, dictGet_dictSet]
      by_cases h0 : k0 = k <;> simp [h0]

/-- C4 counterexample: a caller-supplied `api_key` kwarg overrides the
client's credential in the issued request, so the API key IS overridable. -/
theorem predict_api_key_overridable :
    (predict sampleModel sampleHostedLib "https://api.example/m"
        "http://example.com/cat.jpg" [("api_key", "OVERRIDE")]).map
      (fun r => dictGet r.queryParams "api_key") = .ok (some "OVERRIDE") ∧
    sampleModel.api_key = "SECRET" ∧ "OVERRIDE" ≠ "SECRET" := by
  decide

/-- C4 (amended): caller kwargs are applied last and win on every key
collision, including `api_key`: any key the kwargs carry reads back its last
kwargs value in the issued request, and the `api_key` parameter equals the
client's credential exactly when no `api_key` kwarg was supplied. -/
theorem predict_params_last_writer_wins
    (m : InferenceModel) (lib : ImageLib) (api_url image_path : String)
    (kwargs : List (String × String)) (req : PredictRequest)
    (h : predict m lib api_url image_path kwargs = .ok req) :
    (∀ k v, lastVal kwargs k = some v → dictGet req.queryParams k = some v) ∧
    (lastVal kwargs "api_key" = none →
      dictGet req.queryParams "api_key" = some m.api_key) := by
  unfold predict at h
  cases hp : getImageParams lib image_path with
  | error e =>
    rw [hp] at h
    cases h
  | ok ip =>
    rw [hp] at h
    injection h with h
    subst h
    refine ⟨fun k v hk => ?_, fun hk => ?_⟩
    · simp only [dictGet_dictUpdate, hk]
    · simp only [dictGet_dictUpdate, hk, dictGet_dictSet, if_pos]

/-- C4 witness: with kwargs `confidence=40` and no `api_key` kwarg, the
issued request carries `confidence=40` and the client's own `api_key`. -/
theorem predict_params_last_writer_wins_witness :
    dictGet sampleReq.queryParams "confidence" = some "40" ∧
    dictGet sampleReq.queryParams "api_key" = some "SECRET" := by
  have h := predict_params_last_writer_wins sampleModel sampleHostedLib
    "https://api.example/m" "http://example.com/cat.jpg" [("confidence", "40")]
    sampleReq (by decide)
  exact ⟨h.1 "confidence" "40" (by decide), h.2 (by decide)⟩

/-- C7 counterexample: for a hosted http reference the reported dimensions
are the string "Undefined", not "unknown". -/
theorem getImageParams_hosted_dims_undefined :
    (getImageParams sampleHostedLib "http://example.com/cat.jpg").map
        (fun p => p.image_dims) =
      .ok [("width", "Undefined"), ("height", "Undefined")] ∧
    "Undefined" ≠ "unknown" := by
  decide

/-- C7 (amended): for an http(s) image reference the builder returns query
parameters containing that URL, no request body, and width and height both
reported as the string "Undefined". -/
theorem getImageParams_hosted (lib : ImageLib) (image_path : String)
    (hvalid : lib.validPath image_path = true)
    (hscheme : urlScheme image_path = "http" ∨ urlScheme image_path = "https") :
    getImageParams lib image_path =
      .ok { params := [("image", image_path)], body := .empty, headers := [],
            image_dims := [("width", "Undefined"), ("height", "Undefined")] } := by
  unfold getImageParams
  rcases hscheme with h | h <;> simp [hvalid, h]

/-- C7 witness: instantiating the hosted branch at a concrete URL. -/
theorem getImageParams_hosted_witness :
    getImageParams sampleHostedLib "http://example.com/cat.jpg" =
      .ok { params := [("image", "http://example.com/cat.jpg")], body := .empty,
            headers := [],
            image_dims := [("width", "Undefined"), ("height", "Undefined")] } :=
  getImageParams_hosted sampleHostedLib "http://example.com/cat.jpg" rfl
    (Or.inl (by decide))

/-- C8 counterexample: the multipart field is NAMED "file"; "imageToUpload"
is its filename, not the field name. -/
theorem getImageParams_local_field_name :
    (getImageParams sampleLocalLib "cat.jpg").map
        (fun p =>
          match p.body with
          | .multipart [f] => some (f.fieldName, f.fileName)
          | _ => none) =
      .ok (some ("file", "imageToUpload")) ∧
    "file" ≠ "imageToUpload" := by
  decide

/-- C8 (amended): for a local image path that decodes, the builder re-encodes
the image as JPEG at quality 90 into an in-memory buffer and places it in a
multipart body whose single field is named "file" and carries the filename
"imageToUpload"; the dimensions are the decoded pixel width and height as
strings. -/
theorem getImageParams_local (lib : ImageLib) (image_path : String) (img : ImageData)
    (hvalid : lib.validPath image_path = true)
    (hscheme : urlScheme image_path ∉ (["http", "https"] : List String))
    (hdecode : lib.decode image_path = some img) :
    getImageParams lib image_path =
      .ok { params := [],
            body := .multipart [{ fieldName := "file", fileName := "imageToUpload",
                                  content := lib.encodeJpeg img 90,
                                  contentType := "image/jpeg" }],
            headers := [("Content-Type", "multipart/form-data")],
            image_dims := [("width", toString img.width),
                           ("height", toString img.height)] } := by
  unfold getImageParams
  simp [hvalid, hscheme, hdecode]

/-- C8 witness: instantiating the local branch at the 200 by 150 pixel
`cat.jpg`. -/
theorem getImageParams_local_witness :
    getImageParams sampleLocalLib "cat.jpg" =
      .ok { params := [],
            body := .multipart [{ fieldName := "file", fileName := "imageToUpload",
                                  content := [200, 150, 90],
                                  contentType := "image/jpeg" }],
            headers := [("Content-Type", "multipart/form-data")],
            image_dims := [("width", "200"), ("height", "150")] } := by
  have h := getImageParams_local sampleLocalLib "cat.jpg" { width := 200, height := 150 }
    rfl (by decide) (by decide)
  simpa using h

/-- When every requested additional model is in the supported table, the
validation scan finds no offender. -/
theorem find_unsupported_eq_none (ams : List String)
    (hams : ∀ am ∈ ams, (lookupAdditionalModel am).isSome = true) :
    ams.find? (fun am => (lookupAdditionalModel am).isNone) = none := by
  rw [List.find?_eq_none]
  intro am ham
  cases hl : lookupAdditionalModel am with
  | none =>
    have := hams am ham
    rw [hl] at this
    cases this
  | some d => simp [hl]

/-- C3: for a hosted http(s) video source passing every precondition,
`predict_video` issues no request at all — no signed-URL POST, no upload PUT,
and no job submission: the never-assigned `headers` local is read at the
job-submission line, raising `UnboundLocalError` before the POST goes out. -/
theorem predict_video_hosted_url_unbound_headers
    (m : InferenceModel) (mc : String) (net : VideoNet) (video_path : String)
    (fps : Int) (ams : List String) (pt ty : String)
    (hurl : (pyStartswith video_path "http://" || pyStartswith video_path "https://") = true)
    (hfps : fps ≤ 5)
    (hams : ∀ am ∈ ams, (lookupAdditionalModel am).isSome = true)
    (hpt : pt ∈ SUPPORTED_ROBOFLOW_MODELS)
    (hty : modelTypeOf mc = some ty) :
    predict_video m mc net video_path fps ams pt =
      ([], .error "UnboundLocalError: local variable referenced before assignment: headers") := by
  unfold predict_video
  rw [if_neg (by omega), find_unsupported_eq_none ams hams,
    if_neg (not_not_intro hpt), hty]
  simp [hurl]

/-- C3 witness: a concrete hosted call with valid parameters crashes without
issuing a single request. -/
theorem predict_video_hosted_url_unbound_headers_witness :
    predict_video sampleModel "ObjectDetectionModel" sampleVideoNet
        "https://example.com/v.mp4" 5 [] "batch-video" =
      ([], .error "UnboundLocalError: local variable referenced before assignment: headers") :=
  predict_video_hosted_url_unbound_headers sampleModel "ObjectDetectionModel"
    sampleVideoNet "https://example.com/v.mp4" 5 [] "batch-video" "object-detection"
    (by decide) (by omega) (by intro am ham; cases ham) (by decide) (by decide)

/-- C9: whenever fps > 5, or some requested additional model is outside
{clip, gaze}, or the prediction type is outside {"batch-video"},
`predict_video` raises before any HTTP request: its request trace is empty
and it returns no job. -/
theorem predict_video_precondition_failures
    (m : InferenceModel) (mc : String) (net : VideoNet) (video_path : String)
    (fps : Int) (ams : List String) (pt : String)
    (h : fps > 5 ∨ (∃ am ∈ ams, lookupAdditionalModel am = none) ∨
      pt ∉ SUPPORTED_ROBOFLOW_MODELS) :
    (predict_video m mc net video_path fps ams pt).1 = [] ∧
    ∀ x, (predict_video m mc net video_path fps ams pt).2 ≠ .ok x := by
  unfold predict_video
  by_cases hf : fps > 5
  · simp [hf]
  · rw [if_neg hf]
    cases hfind : ams.find? (fun am => (lookupAdditionalModel am).isNone) with
    | some am => simp
    | none =>
      have hpt : pt ∉ SUPPORTED_ROBOFLOW_MODELS := by
        rcases h with h | h | h
        · omega
        · exfalso
          obtain ⟨am, ham, hnone⟩ := h
          have := List.find?_eq_none.mp hfind am ham
          simp [hnone, Option.isNone] at this
        · exact h
      rw [if_pos hpt]
      simp

/-- C9 witness: `predict_video("v.mp4", fps=6)` records zero HTTP requests
and returns no job. -/
theorem predict_video_precondition_failures_witness :
    (predict_video sampleModel "ObjectDetectionModel" sampleVideoNet "v.mp4" 6 []
        "batch-video").1 = [] ∧
    (predict_video sampleModel "ObjectDetectionModel" sampleVideoNet "v.mp4" 6 []
        "batch-video").2 ≠ .ok ("job-1", "https://storage.example/v.mp4") := by
  have h := predict_video_precondition_failures sampleModel "ObjectDetectionModel"
    sampleVideoNet "v.mp4" 6 [] "batch-video" (Or.inl (by omega))
  exact ⟨h.1, h.2 _⟩

/-- C10: for a call that passes validation with a local video that reads
successfully, the job-submission body carries the resolved signed URL as
`input_url`, an inference frame rate fixed at 5 whatever `fps` was, and the
primary descriptor `{dataset_id, version, inference_type}` followed by the
requested additional descriptors in request order; the call returns the
response's job id together with the resolved URL. -/
theorem predict_video_submission
    (m : InferenceModel) (mc : String) (net : VideoNet) (video_path : String)
    (fps : Int) (ams : List String) (pt ty : String) (video_data : List Nat)
    (hfps : fps ≤ 5)
    (hams : ∀ am ∈ ams, (lookupAdditionalModel am).isSome = true)
    (hpt : pt ∈ SUPPORTED_ROBOFLOW_MODELS)
    (hty : modelTypeOf mc = some ty)
    (hlocal : (pyStartswith video_path "http://" || pyStartswith video_path "https://") = false)
    (hread : net.readFile video_path = some video_data) :
    predict_video m mc net video_path fps ams pt =
      ([VideoRequest.signedUrlPost (signedUrlEndpoint m) video_path,
        VideoRequest.uploadPut (net.signedUrl video_path) video_data,
        VideoRequest.jobPost (videoinferEndpoint m)
          [("Content-Type", "application/octet-stream")]
          ⟨net.signedUrl video_path, 5,
            ⟨m.dataset_id, m.version, ty⟩ :: ams.filterMap lookupAdditionalModel⟩],
       .ok (net.jobId ⟨net.signedUrl video_path, 5,
              ⟨m.dataset_id, m.version, ty⟩ :: ams.filterMap lookupAdditionalModel⟩,
            net.signedUrl video_path)) := by
  unfold predict_video
  rw [if_neg (by omega), find_unsupported_eq_none ams hams,
    if_neg (not_not_intro hpt), hty]
  simp [hlocal, hread]

/-- C10 witness: a concrete local-path call at fps 3 with the additional
model "clip" submits `infer_fps = 5` and the primary descriptor followed by
the clip descriptor, returning the response job id and the signed URL. -/
theorem predict_video_submission_witness :
    predict_video sampleModel "ObjectDetectionModel" sampleVideoNet "v.mp4" 3 ["clip"]
        "batch-video" =
      ([VideoRequest.signedUrlPost (signedUrlEndpoint sampleModel) "v.mp4",
        VideoRequest.uploadPut "https://storage.example/v.mp4" [1, 2, 3],
        VideoRequest.jobPost (videoinferEndpoint sampleModel)
          [("Content-Type", "application/octet-stream")]
          ⟨"https://storage.example/v.mp4", 5,
            [⟨"d", "v", "object-detection"⟩, ⟨"clip", "1", "clip-embed-image"⟩]⟩],
       .ok ("job-1", "https://storage.example/v.mp4")) := by
  have h := predict_video_submission sampleModel "ObjectDetectionModel" sampleVideoNet
    "v.mp4" 3 ["clip"] "batch-video" "object-detection" [1, 2, 3]
    (by omega)
    (by
      intro am ham
      rw [List.mem_singleton] at ham
      subst ham
      decide)
    (by decide) (by decide) (by decide) (by decide)
  exact h

/-- Unrolling the blocking-poll loop: when the first `k` single polls return
`{}` and poll `k` returns a non-empty `r`, the loop runs exactly `k + 1`
iterations (each one a poll followed by a 60-second sleep) and returns `r`. -/
theorem poll_until_aux_first_nonempty
    (m : InferenceModel) (cached : Option String) (nets : Nat → PollNet)
    (k : Nat) (r : Json) :
    ∀ a fuel, k + 1 ≤ fuel →
    (∀ i, i < k →
      (poll_for_video_results m cached (nets (a + i)) none).2 = .ok Json.objNil) →
    (poll_for_video_results m cached (nets (a + k)) none).2 = .ok r →
    r ≠ Json.objNil →
    poll_until_aux m cached nets fuel a = (pollTrace a (k + 1), some (.ok r)) := by
  induction k with
  | zero =>
    intro a fuel hfuel hpend hready hne
    match fuel, hfuel with
    | fuel + 1, _ =>
      rw [poll_until_aux]
      rw [show a + 0 = a from rfl] at hready
      rw [hready]
      simp [hne, pollTrace]
  | succ k ih =>
    intro a fuel hfuel hpend hready hne
    match fuel, hfuel with
    | fuel + 1, hfuel =>
      rw [poll_until_aux]
      have h0 : (poll_for_video_results m cached (nets a) none).2 = .ok Json.objNil := by
        have := hpend 0 (Nat.succ_pos k)
        rwa [Nat.add_zero] at this
      rw [h0]
      have hr := ih (a + 1) fuel (by omega)
        (fun i hi => by
          have := hpend (i + 1) (by omega)
          rwa [show a + (i + 1) = a + 1 + i by omega] at this)
        (by rwa [show a + 1 + k = a + (k + 1) by omega])
        hne
      simp [hr, pollTrace]

/-- C6 counterexample: against single polls that are pending twice then
ready, the blocking poll makes exactly 3 single-poll calls but sleeps 60
seconds after EVERY call — the trace ends in a sleep, so there IS a sleep
after the final call. -/
theorem poll_until_sleeps_after_final_call :
    poll_until_video_results sampleModel (some "abc123") scenarioNets none 10 =
      ([PollEvent.pollCall 0, PollEvent.sleepSec 60, PollEvent.pollCall 1,
        PollEvent.sleepSec 60, PollEvent.pollCall 2, PollEvent.sleepSec 60],
       some (.ok (Json.objCons "frame_0" (Json.str "pred") Json.objNil))) ∧
    (poll_until_video_results sampleModel (some "abc123") scenarioNets none 10).1.getLast? =
      some (PollEvent.sleepSec 60) := by
  decide

/-- C6 (amended): when the first `k` single-poll outcomes are empty ("not
ready") and outcome `k` is non-empty ("ready"), the blocking poll makes
exactly `k + 1` single-poll calls, sleeps a fixed 60 seconds after every call
including the final one, and returns exactly the first non-empty result.  For
the spec's scenario (empty twice, then ready) that is 3 calls and 3 sleeps. -/
theorem poll_until_video_results_first_nonempty
    (m : InferenceModel) (cjid : String) (nets : Nat → PollNet)
    (jid : Option String) (k fuel : Nat) (r : Json)
    (hfuel : k + 1 ≤ fuel)
    (hpend : ∀ i, i < k →
      (poll_for_video_results m (some cjid) (nets i) none).2 = .ok Json.objNil)
    (hready : (poll_for_video_results m (some cjid) (nets k) none).2 = .ok r)
    (hne : r ≠ Json.objNil) :
    poll_until_video_results m (some cjid) nets jid fuel =
      (pollTrace 0 (k + 1), some (.ok r)) := by
  have h := poll_until_aux_first_nonempty m (some cjid) nets k r 0 fuel hfuel
    (fun i hi => by simpa using hpend i hi)
    (by simpa using hready)
    hne
  cases jid with
  | none => simpa [poll_until_video_results] using h
  | some j => simpa [poll_until_video_results] using h

/-- C6 witness: instantiating the amended statement at the pending-pending-
ready network history gives the 3-call, 3-sleep trace and the ready payload. -/
theorem poll_until_video_results_first_nonempty_witness :
    poll_until_video_results sampleModel (some "abc123") scenarioNets none 10 =
      (pollTrace 0 3, some (.ok (Json.objCons "frame_0" (Json.str "pred") Json.objNil))) := by
  have h := poll_until_video_results_first_nonempty sampleModel "abc123" scenarioNets
    none 2 10 (Json.objCons "frame_0" (Json.str "pred") Json.objNil)
    (by omega)
    (by
      intro i hi
      interval_cases i <;> decide)
    (by decide) (by decide)
  exact h
